import Mathlib

/-!
Shallow embedding of `app.py` from the fast-music-remover repository.

The pipeline in `app.py` is:
  * `cleanup_old_files(base)` — removes the three canonical artifact paths when present;
  * `download_youtube_video(url)` — drives yt-dlp, renames the merged container to a
    space-free name, returns an absolute path (or `None` on an exception);
  * `process_video_with_cpp(path)` — runs the external processor, parses stdout for the
    success-marker line, returns the extracted path (or `None`);
  * `index()` — the POST handler composing the two stages into a JSON response.

The filesystem is modelled as the set of existing paths (a `List String` read as a set).
The two external tools (yt-dlp and the C++ processor) are black boxes: each run's
observable outcome is an oracle value (`FetchOutcome`, `ProcOutcome`) passed in explicitly.
Python string operations used by the source (`in`, `split(": ")`, `strip()`,
`replace(' ', '_')`, `os.path.basename`) are re-implemented charwise below with the
same semantics.
-/

namespace App

/-- Whether `pat` occurs at the start of `l` (Python `l.startswith(pat)` on character lists). -/
def leadsWith : List Char → List Char → Bool
  | [], _ => true
  | _ :: _, [] => false
  | a :: as, b :: bs => a == b && leadsWith as bs

/-- Python substring test `pat in s` on character lists. -/
def containsSub (pat : List Char) : List Char → Bool
  | [] => pat.isEmpty
  | c :: rest => leadsWith pat (c :: rest) || containsSub pat rest

/-- Python `s.split(": ")`: split on the two-character separator `": "`,
leftmost-first, non-overlapping.  Specialised to the separator the source uses. -/
def pySplitCS : List Char → List (List Char)
  | [] => [[]]
  | [c] => [[c]]
  | c₁ :: c₂ :: rest =>
      if c₁ = ':' ∧ c₂ = ' ' then [] :: pySplitCS rest
      else
        match pySplitCS (c₂ :: rest) with
        | [] => [[c₁]]
        | f :: fs => (c₁ :: f) :: fs

/-- Python `s.strip()`: drop whitespace from both ends. -/
def pyStripL (l : List Char) : List Char :=
  ((l.dropWhile Char.isWhitespace).reverse.dropWhile Char.isWhitespace).reverse

/-- Python `s.strip()` on strings. -/
def pyStrip (s : String) : String := String.mk (pyStripL s.data)

/-- Python `os.path.basename`: the part of the path after the last `/`. -/
def pyBasename (s : String) : String :=
  String.mk ((s.data.reverse.takeWhile (fun c => c ≠ '/')).reverse)

/-- Replacement of one character as performed on each position by
`base_title.replace(' ', '_')`. -/
def sanitizeChar (c : Char) : Char := if c = ' ' then '_' else c

/-- Sanitization, `base_title.replace(' ', '_')` (app.py line 77): each space character becomes an
underscore; `str.replace` with single-character arguments acts characterwise. -/
def sanitizeTitle (s : String) : String :=
  String.mk (s.data.map sanitizeChar)

/-- Python `os.path.join a b` for a non-empty `a` without trailing slash and a relative `b`,
which is the shape of every join in app.py. -/
def pathJoin (a b : String) : String := a ++ "/" ++ b

/-- Process-wide configuration read once at start: the upload folder
(`config.get('upload_folder', 'uploads')`) and the working directory used by
`os.path.abspath`. -/
structure Config where
  upload_folder : String
  cwd : String
  deriving DecidableEq

/-- Whether a path is absolute, i.e. begins with a slash. -/
def isAbsolutePath (p : String) : Bool := leadsWith "/".data p.data

/-- Python `os.path.abspath` (without `..`/`.` normalisation, which app.py never relies on):
an absolute path is returned unchanged, a relative one is joined to the working
directory. -/
def abspath (cfg : Config) (p : String) : String :=
  if isAbsolutePath p then p else pathJoin cfg.cwd p

/-- The filesystem as the set of existing paths. -/
abbrev FS : Type := List String

/-- Python `os.remove p`: deletes the file, raising (`none`) when the path does not exist. -/
def osRemove (p : String) (fs : FS) : Option FS :=
  if p ∈ (fs : List String) then some ((fs : List String).filter (fun q => q ≠ p)) else none

/-- Python `os.rename src dst`: the source path disappears, the destination path exists. -/
def renameFile (src dst : String) (fs : FS) : FS :=
  (dst :: (fs : List String).filter (fun q => q ≠ src) : List String)

/-- The three canonical artifact paths for a base name (app.py lines 51–55). -/
def artifactPaths (cfg : Config) (base : String) : List String :=
  [ pathJoin cfg.upload_folder (base ++ ".webm"),
    pathJoin cfg.upload_folder (base ++ "_isolated_audio.wav"),
    pathJoin cfg.upload_folder (base ++ "_processed_video.mp4") ]

/-- The function `cleanup_old_files` (app.py lines 49–59): for each of the three canonical paths,
remove it if it exists.  `none` would mean an uncaught exception from `os.remove`. -/
def cleanup_old_files (cfg : Config) (base : String) (fs : FS) : Option FS :=
  (artifactPaths cfg base).foldlM
    (fun s path => if path ∈ (s : List String) then osRemove path s else some s) fs

/-- Observable outcome of the yt-dlp call `ydl.extract_info(url, download=True)`:
either it raises, or it returns metadata whose `title` field is the given string
(any files yt-dlp wrote are part of the incoming filesystem state). -/
inductive FetchOutcome
  | err
  | ok (title : String)
  deriving DecidableEq

/-- The function `download_youtube_video` (app.py lines 61–90).  On a successful extract, the merged
container named after the raw title is renamed to the sanitized name when it exists;
when it is absent an error is logged but the absolute renamed path is still returned.
On an exception the handler returns `None`. -/
def download_youtube_video (cfg : Config) (fetch : FetchOutcome) (fs : FS) :
    Option String × FS :=
  match fetch with
  | .err => (none, fs)
  | .ok title =>
      let original := pathJoin cfg.upload_folder (title ++ ".webm")
      let renamed := pathJoin cfg.upload_folder (sanitizeTitle title ++ ".webm")
      if original ∈ (fs : List String) then
        (some (abspath cfg renamed), renameFile original renamed fs)
      else
        (some (abspath cfg renamed), fs)

/-- Observable outcome of `subprocess.run([...binary, video_path], capture_output=True,
text=True)`: the launch fails with an exception, or the process runs to completion with
an exit status and captured stdout, given as the list `result.stdout.splitlines()`. -/
inductive ProcOutcome
  | launchFail
  | ran (returncode : Int) (stdout_lines : List String)
  deriving DecidableEq

/-- The marker substring tested by `"Video processed successfully" in line`. -/
def successMarker : String := "Video processed successfully"

/-- The extraction `line.split(": ")[1].strip()` (app.py line 107).  `none` models the `IndexError`
raised when the split has fewer than two fields, which the surrounding `except`
turns into `None` for the whole call. -/
def extractPath (line : String) : Option String :=
  match (pySplitCS line.data).get? 1 with
  | some seg => some (String.mk (pyStripL seg))
  | none => none

/-- The `for line in result.stdout.splitlines()` loop of app.py lines 105–108: the first
line containing the marker determines the result; an `IndexError` on that line aborts
the whole call. -/
def findMarker : List String → Option String
  | [] => none
  | line :: rest =>
      if containsSub successMarker.data line.data then extractPath line
      else findMarker rest

/-- The function `process_video_with_cpp` (app.py lines 93–113).  The video path argument is only
passed to the subprocess; the result depends on the run outcome alone. -/
def process_video_with_cpp (run : ProcOutcome) : Option String :=
  match run with
  | .launchFail => none
  | .ran rc lines => if rc ≠ 0 then none else findMarker lines

/-- The JSON responses `index` can produce, plus the rendered submission page. -/
inductive JsonResponse
  | error (message : String)
  | completed (video_url : String)
  | page
  deriving DecidableEq

/-- Flask `url_for('serve_video', filename=name)` resolves to the route
`/video/<filename>` (percent-encoding of the name is not modelled). -/
def url_for_serve_video (filename : String) : String := "/video/" ++ filename

/-- Result of one POST request: the response, the filesystem afterwards, and whether
each external stage was reached. -/
structure RunResult where
  response : JsonResponse
  fs : FS
  fetch_invoked : Bool
  processor_invoked : Bool
  deriving DecidableEq

/-- The POST branch of `index` (app.py lines 115–135).  An empty `url` field is falsy,
so the pipeline is skipped and the submission page is rendered.  Note the handler never
calls `cleanup_old_files`. -/
def index_post (cfg : Config) (url : String) (fetch : FetchOutcome) (proc : ProcOutcome)
    (fs : FS) : RunResult :=
  if url = "" then ⟨.page, fs, false, false⟩
  else
    match download_youtube_video cfg fetch fs with
    | (none, fs₁) => ⟨.error "Failed to download video.", fs₁, true, false⟩
    | (some p, fs₁) =>
        if p = "" then ⟨.error "Failed to download video.", fs₁, true, false⟩
        else
          match process_video_with_cpp proc with
          | some processed =>
              ⟨.completed (url_for_serve_video (pyBasename processed)), fs₁, true, true⟩
          | none => ⟨.error "Failed to process video.", fs₁, true, true⟩

/-- Declarative acceptance condition equivalent to the stdout scan: some line contains
the marker substring, and the first such line splits on `": "` into at least two
fields (otherwise the `IndexError` path fires). -/
def markerLineAccepted (lines : List String) : Bool :=
  match lines.find? (fun l => containsSub successMarker.data l.data) with
  | some l => decide (2 ≤ (pySplitCS l.data).length)
  | none => false

/-- Modelled from the spec: a stdout line "matching the pattern
`Video processed successfully: <path>`" — §6 requires "a line of the exact form
`Video processed successfully: <absolute-output-path>`", i.e. the literal marker,
a colon and a space, then the path. -/
def matchesSuccessPattern (line : String) : Bool :=
  leadsWith "Video processed successfully: ".data line.data

/-! ## Helper lemmas -/

theorem leadsWith_append_self (l r : List Char) : leadsWith l (l ++ r) = true := by
  induction l with
  | nil => rfl
  | cons a as ih => simp [leadsWith, ih]

theorem containsSub_append_self (pat rest : List Char) :
    containsSub pat (pat ++ rest) = true := by
  cases pat with
  | nil =>
      cases rest with
      | nil => rfl
      | cons c r => simp [containsSub, leadsWith]
  | cons a as =>
      simp only [List.cons_append, containsSub, Bool.or_eq_true]
      exact Or.inl (leadsWith_append_self (a :: as) rest)

theorem containsSub_cons_false {pat : List Char} {c : Char} {l : List Char}
    (h : containsSub pat (c :: l) = false) : containsSub pat l = false := by
  simp only [containsSub, Bool.or_eq_false_iff] at h
  exact h.2

theorem pySplitCS_no_sep : ∀ (l : List Char), containsSub [':', ' '] l = false →
    pySplitCS l = [l]
  | [], _ => rfl
  | [_], _ => rfl
  | c₁ :: c₂ :: rest, h => by
      have htail := containsSub_cons_false h
      have hrec := pySplitCS_no_sep (c₂ :: rest) htail
      have hsep : ¬(c₁ = ':' ∧ c₂ = ' ') := by
        intro hc
        rw [hc.1, hc.2] at h
        simp [containsSub, leadsWith] at h
      simp only [pySplitCS, if_neg hsep, hrec]

theorem pySplitCS_append_sep : ∀ (m l : List Char), containsSub [':', ' '] m = false →
    pySplitCS (m ++ ':' :: ' ' :: l) = m :: pySplitCS l
  | [], l, _ => by simp [pySplitCS]
  | [c], l, _ => by
      have hsep : ¬(c = ':' ∧ (':' : Char) = ' ') := by simp
      simp only [List.cons_append, List.nil_append, pySplitCS, if_neg hsep]
      simp [pySplitCS]
  | c :: g :: m', l, h => by
      have htail := containsSub_cons_false h
      have hrec := pySplitCS_append_sep (g :: m') l htail
      have hsep : ¬(c = ':' ∧ g = ' ') := by
        intro hc
        rw [hc.1, hc.2] at h
        simp [containsSub, leadsWith] at h
      simp only [List.cons_append] at hrec ⊢
      simp only [pySplitCS, if_neg hsep, hrec]

theorem extractPath_isSome (line : String) :
    (extractPath line).isSome = decide (2 ≤ (pySplitCS line.data).length) := by
  unfold extractPath
  cases hs : pySplitCS line.data with
  | nil => simp
  | cons f fs =>
      cases fs with
      | nil => simp
      | cons f₂ fs₂ =>
          have h2 : (2 : ℕ) ≤ (f :: f₂ :: fs₂).length := by
            simp [List.length_cons]
          simp [h2]

theorem findMarker_isSome : ∀ (lines : List String),
    (findMarker lines).isSome = markerLineAccepted lines
  | [] => rfl
  | line :: rest => by
      cases hc : containsSub successMarker.data line.data with
      | true =>
          rw [findMarker, if_pos hc]
          unfold markerLineAccepted
          have hf : List.find? (fun l => containsSub successMarker.data l.data)
              (line :: rest) = some line := List.find?_cons_of_pos _ hc
          rw [hf]
          exact extractPath_isSome line
      | false =>
          rw [findMarker, if_neg (by simp [hc]), findMarker_isSome rest]
          unfold markerLineAccepted
          have hf : List.find? (fun l => containsSub successMarker.data l.data)
              (line :: rest)
              = List.find? (fun l => containsSub successMarker.data l.data) rest :=
            List.find?_cons_of_neg _ (by simp [hc])
          rw [hf]

theorem findMarker_eq_none : ∀ (lines : List String),
    (∀ l ∈ lines, containsSub successMarker.data l.data = false) →
    findMarker lines = none
  | [], _ => rfl
  | a :: t, h => by
      rw [findMarker, if_neg (by simp [h a (List.mem_cons_self a t)])]
      exact findMarker_eq_none t (fun l hl => h l (List.mem_cons_of_mem a hl))

theorem findMarker_append : ∀ (pre : List String) (line : String) (rest : List String),
    (∀ l ∈ pre, containsSub successMarker.data l.data = false) →
    containsSub successMarker.data line.data = true →
    findMarker (pre ++ line :: rest) = extractPath line
  | [], line, rest, _, hline => by
      rw [List.nil_append, findMarker, if_pos hline]
  | a :: t, line, rest, hpre, hline => by
      have ha : containsSub successMarker.data a.data = false :=
        hpre a (List.mem_cons_self a t)
      rw [List.cons_append, findMarker, if_neg (by simp [ha])]
      exact findMarker_append t line rest
        (fun l hl => hpre l (List.mem_cons_of_mem a hl)) hline

theorem pathJoin_ne_empty (a b : String) : pathJoin a b ≠ "" := by
  intro h
  have hlen : (pathJoin a b).length = 0 := by rw [h]; rfl
  unfold pathJoin at hlen
  rw [String.length_append, String.length_append,
    show ("/" : String).length = 1 from rfl] at hlen
  omega

theorem abspath_ne_empty (cfg : Config) (a b : String) :
    abspath cfg (pathJoin a b) ≠ "" := by
  unfold abspath
  split
  · exact pathJoin_ne_empty a b
  · exact pathJoin_ne_empty cfg.cwd (pathJoin a b)

theorem sanitizeChar_idem (c : Char) : sanitizeChar (sanitizeChar c) = sanitizeChar c := by
  unfold sanitizeChar
  by_cases hc : c = ' ' <;> simp [hc]

theorem map_sanitize_idem (l : List Char) :
    (l.map sanitizeChar).map sanitizeChar = l.map sanitizeChar := by
  induction l with
  | nil => rfl
  | cons c t ih => simp only [List.map_cons, sanitizeChar_idem, ih]

theorem download_ok_fst (cfg : Config) (title : String) (fs : FS) :
    (download_youtube_video cfg (.ok title) fs).1
      = some (abspath cfg (pathJoin cfg.upload_folder (sanitizeTitle title ++ ".webm"))) := by
  simp only [download_youtube_video]
  split <;> rfl

theorem index_post_processing (cfg : Config) (url : String) (fetch : FetchOutcome)
    (proc : ProcOutcome) (fs : FS) (hurl : url ≠ "")
    (p : String) (fs₁ : FS)
    (hd : download_youtube_video cfg fetch fs = (some p, fs₁))
    (hp : p ≠ "") :
    index_post cfg url fetch proc fs
      = match process_video_with_cpp proc with
        | some processed =>
            ⟨.completed (url_for_serve_video (pyBasename processed)), fs₁, true, true⟩
        | none => ⟨.error "Failed to process video.", fs₁, true, true⟩ := by
  unfold index_post
  rw [if_neg hurl, hd]
  show (if p = "" then (⟨.error "Failed to download video.", fs₁, true, false⟩ : RunResult)
      else
        match process_video_with_cpp proc with
        | some processed =>
            ⟨.completed (url_for_serve_video (pyBasename processed)), fs₁, true, true⟩
        | none => ⟨.error "Failed to process video.", fs₁, true, true⟩) = _
  rw [if_neg hp]

theorem string_marker_data (p : String) :
    ("Video processed successfully: " ++ p).data
      = "Video processed successfully".data ++ ':' :: ' ' :: p.data := by
  rw [String.data_append]
  rfl

/-! ## Claims -/

/-- C6: title sanitization is idempotent: `sanitize(sanitize(x)) == sanitize(x)` holds
for every string `x`, since `replace(' ', '_')` acts characterwise and replacing spaces
in a space-free string changes nothing. -/
theorem c6_sanitize_idempotent (x : String) :
    sanitizeTitle (sanitizeTitle x) = sanitizeTitle x :=
  congrArg String.mk (map_sanitize_idem x.data)

/-- C5 (amended): sanitization replaces each space character (and only spaces, not other
whitespace, and not runs as a whole) with one underscore, position by position; hence the
result never contains a space character, its length is that of the input, and every
position holds the replaced character of the input position. -/
theorem c5_amended :
    (∀ s : String, (sanitizeTitle s).data.all (fun c => c != ' ') = true)
    ∧ (∀ s : String, (sanitizeTitle s).length = s.length)
    ∧ (∀ (s : String) (i : ℕ),
        (sanitizeTitle s).data[i]? = (s.data[i]?).map sanitizeChar) := by
  refine ⟨fun s => ?_, fun s => ?_, fun s i => ?_⟩
  · rw [show (sanitizeTitle s).data = s.data.map sanitizeChar from rfl]
    rw [List.all_eq_true]
    intro c hc
    rcases List.mem_map.mp hc with ⟨d, _, hd⟩
    subst hd
    unfold sanitizeChar
    by_cases hd' : d = ' ' <;> simp [hd']
  · show (s.data.map sanitizeChar).length = s.data.length
    exact List.length_map s.data sanitizeChar
  · rw [show (sanitizeTitle s).data = s.data.map sanitizeChar from rfl]
    exact List.getElem?_map sanitizeChar s.data i

/-- C5 counterexample: the claim says every whitespace run becomes a single underscore
and no whitespace survives; but on `"a\tb c  d"` the tab survives (so whitespace remains)
and the two-space run becomes two underscores. -/
theorem c5_counterexample :
    sanitizeTitle "a\tb c  d" = "a\tb_c__d"
    ∧ (sanitizeTitle "a\tb c  d").data.any Char.isWhitespace = true := by
  constructor
  · rfl
  · rfl

/-- C8: a POST whose `url` form field is the empty string is falsy in the handler's
`if url:` test, so neither stage runs, the filesystem is untouched, and the rendered
submission page is returned instead of a JSON result. -/
theorem c8_empty_url_renders_page (cfg : Config) (fetch : FetchOutcome)
    (proc : ProcOutcome) (fs : FS) :
    index_post cfg "" fetch proc fs = ⟨.page, fs, false, false⟩ := by
  unfold index_post
  rw [if_pos rfl]

theorem cleanup_step_eq (p : String) (s : FS) :
    (if p ∈ (s : List String) then osRemove p s else some s)
      = some ((s : List String).filter (fun q => q ≠ p)) := by
  by_cases hp : p ∈ (s : List String)
  · rw [if_pos hp]
    unfold osRemove
    rw [if_pos hp]
  · rw [if_neg hp]
    congr 1
    symm
    apply List.filter_eq_self.mpr
    intro a ha
    have hne : a ≠ p := fun heq => hp (heq ▸ ha)
    simp [hne]

theorem cleanup_foldlM_eq : ∀ (paths : List String) (s : FS),
    paths.foldlM (fun s path => if path ∈ (s : List String) then osRemove path s else some s) s
      = some (paths.foldl (fun s path => (s : List String).filter (fun q => q ≠ path)) s)
  | [], s => rfl
  | p :: ps, s => by
      rw [List.foldlM_cons, cleanup_step_eq p s]
      show (ps.foldlM _ _) = _
      rw [cleanup_foldlM_eq ps _, List.foldl_cons]

theorem mem_foldl_filter : ∀ (paths : List String) (s : FS) (p : String),
    (p ∈ paths.foldl (fun s path => (s : List String).filter (fun q => q ≠ path)) s)
      ↔ (p ∈ (s : List String) ∧ p ∉ paths)
  | [], s, p => by simp
  | q :: ps, s, p => by
      rw [List.foldl_cons, mem_foldl_filter ps _ p]
      simp [List.mem_filter, List.mem_cons, not_or]
      tauto

/-- C10: `cleanup_old_files base` never raises (the existence check guards each
`os.remove`), and the resulting filesystem keeps exactly the files that are not among
the three canonical artifact paths for `base` — so at most those three files are
deleted and every other file is untouched. -/
theorem c10_cleanup_frame (cfg : Config) (base : String) (fs : FS) :
    (cleanup_old_files cfg base fs).isSome = true
    ∧ ∀ p : String, p ∈ ((cleanup_old_files cfg base fs).getD [] : List String)
        ↔ (p ∈ (fs : List String) ∧ p ∉ artifactPaths cfg base) := by
  have heq : cleanup_old_files cfg base fs
      = some ((artifactPaths cfg base).foldl
          (fun s path => (s : List String).filter (fun q => q ≠ path)) fs) :=
    cleanup_foldlM_eq (artifactPaths cfg base) fs
  constructor
  · rw [heq]; rfl
  · intro p
    rw [heq]
    exact mem_foldl_filter (artifactPaths cfg base) fs p

theorem c10_cleanup_frame_witness :
    "/u/keep.txt" ∈ ((cleanup_old_files ⟨"/u", "/c"⟩ "X"
        ["/u/X.webm", "/u/keep.txt"]).getD [] : List String) :=
  ((c10_cleanup_frame ⟨"/u", "/c"⟩ "X" ["/u/X.webm", "/u/keep.txt"]).2 "/u/keep.txt").mpr
    ⟨by decide, by decide⟩

/-- C7: for a non-empty `url` field the handler returns exactly one of the three JSON
results: the coarse download failure message, the coarse processing failure message, or
`completed` with the `/video/<basename>` URL of the processor's reported path — no other
message or structured error detail is surfaced. -/
theorem c7_three_outcomes (cfg : Config) (url : String) (fetch : FetchOutcome)
    (proc : ProcOutcome) (fs : FS) (h : url ≠ "") :
    (index_post cfg url fetch proc fs).response = .error "Failed to download video."
    ∨ (index_post cfg url fetch proc fs).response = .error "Failed to process video."
    ∨ (index_post cfg url fetch proc fs).response
        = .completed (url_for_serve_video
            (pyBasename ((process_video_with_cpp proc).getD ""))) := by
  unfold index_post
  rw [if_neg h]
  split
  · exact Or.inl rfl
  · split
    · exact Or.inl rfl
    · split
      · rename_i processed hproc
        refine Or.inr (Or.inr ?_)
        rw [hproc]
        rfl
      · exact Or.inr (Or.inl rfl)

theorem c7_three_outcomes_witness :
    (index_post ⟨"/u", "/c"⟩ "u" .err .launchFail []).response
        = .error "Failed to download video."
    ∨ (index_post ⟨"/u", "/c"⟩ "u" .err .launchFail []).response
        = .error "Failed to process video."
    ∨ (index_post ⟨"/u", "/c"⟩ "u" .err .launchFail []).response
        = .completed (url_for_serve_video
            (pyBasename ((process_video_with_cpp .launchFail).getD ""))) :=
  c7_three_outcomes ⟨"/u", "/c"⟩ "u" .err .launchFail [] (by decide)

/-- C9: with exit status zero, the extracted path comes from the first stdout line that
contains the success marker; all later lines — marker-bearing or not — are ignored. -/
theorem c9_first_marker_line_wins (pre : List String) (line : String) (rest : List String)
    (hpre : ∀ l ∈ pre, containsSub successMarker.data l.data = false)
    (hline : containsSub successMarker.data line.data = true) :
    process_video_with_cpp (.ran 0 (pre ++ line :: rest)) = extractPath line := by
  show (if (0 : Int) ≠ 0 then none else findMarker (pre ++ line :: rest)) = extractPath line
  rw [if_neg (by simp)]
  exact findMarker_append pre line rest hpre hline

theorem c9_first_marker_line_wins_witness :
    process_video_with_cpp (.ran 0
      ["noise", "Video processed successfully: /a.mp4",
       "Video processed successfully: /b.mp4"])
      = some "/a.mp4" := by
  have h := c9_first_marker_line_wins ["noise"] "Video processed successfully: /a.mp4"
      ["Video processed successfully: /b.mp4"] (by decide) (by decide)
  exact h.trans rfl

/-- C1 is violated by the code: `cleanup_old_files` is defined (app.py lines 49–59) but
never called by the handler, so a second run with the same base name `X` leaves the
first run's `X_isolated_audio.wav` in place even after completing; had the handler
invoked `cleanup_old_files "X"`, all three stale paths would have been removed. -/
theorem c1_stale_artifacts_persist :
    "/data/uploads/X_isolated_audio.wav" ∈
      ((index_post ⟨"/data/uploads", "/srv"⟩ "u" (.ok "X")
        (.ran 0 ["Video processed successfully: /data/uploads/X_processed_video.mp4"])
        ["/data/uploads/X.webm", "/data/uploads/X_isolated_audio.wav",
         "/data/uploads/X_processed_video.mp4"]).fs : List String)
    ∧ (index_post ⟨"/data/uploads", "/srv"⟩ "u" (.ok "X")
        (.ran 0 ["Video processed successfully: /data/uploads/X_processed_video.mp4"])
        ["/data/uploads/X.webm", "/data/uploads/X_isolated_audio.wav",
         "/data/uploads/X_processed_video.mp4"]).response
        = .completed "/video/X_processed_video.mp4"
    ∧ cleanup_old_files ⟨"/data/uploads", "/srv"⟩ "X"
        ["/data/uploads/X.webm", "/data/uploads/X_isolated_audio.wav",
         "/data/uploads/X_processed_video.mp4"] = some [] := by
  refine ⟨by decide, by decide, by decide⟩

/-- C2 is violated by the code: when the expected merged file is absent after a reported
fetch success (here the filesystem is empty, so `<upload>/My Clip.webm` does not exist),
`download_youtube_video` logs an error but still returns the renamed absolute path, so
the handler invokes the processor anyway and any failure surfaces as the
processing-stage message, not as `Failed to download video.`. -/
theorem c2_missing_merged_file_still_processes :
    (download_youtube_video ⟨"/data/uploads", "/srv"⟩ (.ok "My Clip") []).1
      = some "/data/uploads/My_Clip.webm"
    ∧ (index_post ⟨"/data/uploads", "/srv"⟩ "u" (.ok "My Clip")
        .launchFail []).processor_invoked = true
    ∧ (index_post ⟨"/data/uploads", "/srv"⟩ "u" (.ok "My Clip")
        .launchFail []).response = .error "Failed to process video." := by
  refine ⟨by decide, by decide, by decide⟩

/-- C3 counterexample: a stdout line can contain the marker substring without matching
the pattern `Video processed successfully: <path>` (here an extra leading `A`), yet with
exit status zero the invoker still reports success and extracts a path — the claimed
"iff a matching line exists" fails, as does "zero exit with no matching line fails". -/
theorem c3_counterexample :
    process_video_with_cpp (.ran 0 ["AVideo processed successfully: /x"]) = some "/x"
    ∧ matchesSuccessPattern "AVideo processed successfully: /x" = false := by
  refine ⟨by decide, by decide⟩

/-- C3 (amended): the invoker reports success iff the exit status is zero and some
stdout line contains the substring `Video processed successfully` (containment, not a
whole-line pattern match), with the first such line splitting on `": "` into at least
two fields; and with exit status zero and no marker-containing line at all (hence in
particular no pattern-matching line), the pipeline surfaces
`Failed{"Failed to process video."}`. -/
theorem c3_amended :
    (∀ (rc : Int) (lines : List String),
        (process_video_with_cpp (.ran rc lines)).isSome
          = (decide (rc = 0) && markerLineAccepted lines))
    ∧ (∀ (cfg : Config) (url title : String) (lines : List String) (fs : FS),
        url ≠ "" →
        (∀ l ∈ lines, containsSub successMarker.data l.data = false) →
        (index_post cfg url (.ok title) (.ran 0 lines) fs).response
          = .error "Failed to process video.") := by
  constructor
  · intro rc lines
    by_cases hrc : rc = 0
    · subst hrc
      show (if (0 : Int) ≠ 0 then none else findMarker lines).isSome = _
      rw [if_neg (by simp), findMarker_isSome lines]
      simp
    · show (if rc ≠ 0 then none else findMarker lines).isSome = _
      rw [if_pos hrc]
      simp [hrc]
  · intro cfg url title lines fs hurl hnone
    have hproc : process_video_with_cpp (.ran 0 lines) = none := by
      show (if (0 : Int) ≠ 0 then none else findMarker lines) = none
      rw [if_neg (by simp)]
      exact findMarker_eq_none lines hnone
    rcases heq : download_youtube_video cfg (.ok title) fs with ⟨op, fs₁⟩
    have hop := download_ok_fst cfg title fs
    rw [heq] at hop
    subst hop
    rw [index_post_processing cfg url (.ok title) _ fs hurl _ fs₁ heq
      (abspath_ne_empty cfg _ _), hproc]

theorem c3_amended_witness :
    (index_post ⟨"/u", "/c"⟩ "u" (.ok "T") (.ran 0 ["hello"]) []).response
      = .error "Failed to process video." :=
  c3_amended.2 ⟨"/u", "/c"⟩ "u" "T" ["hello"] [] (by decide) (by decide)

/-- C4: when the processor exits 0 and prints the line
`Video processed successfully: <path>` (for a path that does not itself contain the
`": "` separator, so the pattern parse is unambiguous), the extracted artifact path is
the segment after the colon stripped of surrounding whitespace, and the handler answers
`completed` with the `/video/<basename>` URL of that path. -/
theorem c4_success_line_extraction (cfg : Config) (url title p : String) (fs : FS)
    (hurl : url ≠ "") (hp : containsSub [':', ' '] p.data = false) :
    process_video_with_cpp (.ran 0 ["Video processed successfully: " ++ p])
      = some (pyStrip p)
    ∧ (index_post cfg url (.ok title)
        (.ran 0 ["Video processed successfully: " ++ p]) fs).response
      = .completed (url_for_serve_video (pyBasename (pyStrip p))) := by
  have hcontains : containsSub successMarker.data
      ("Video processed successfully: " ++ p).data = true := by
    rw [string_marker_data p]
    exact containsSub_append_self successMarker.data (':' :: ' ' :: p.data)
  have hextract : extractPath ("Video processed successfully: " ++ p)
      = some (pyStrip p) := by
    unfold extractPath
    rw [string_marker_data p, pySplitCS_append_sep _ _ (by decide),
      pySplitCS_no_sep p.data hp]
    rfl
  have hproc : process_video_with_cpp
      (.ran 0 ["Video processed successfully: " ++ p]) = some (pyStrip p) := by
    show (if (0 : Int) ≠ 0 then none
        else findMarker ["Video processed successfully: " ++ p]) = _
    rw [if_neg (by simp), findMarker, if_pos hcontains]
    exact hextract
  refine ⟨hproc, ?_⟩
  rcases heq : download_youtube_video cfg (.ok title) fs with ⟨op, fs₁⟩
  have hop := download_ok_fst cfg title fs
  rw [heq] at hop
  subst hop
  rw [index_post_processing cfg url (.ok title) _ fs hurl _ fs₁ heq
    (abspath_ne_empty cfg _ _), hproc]

theorem c4_success_line_extraction_witness :
    process_video_with_cpp (.ran 0 ["Video processed successfully: /tmp/out.mp4"])
      = some "/tmp/out.mp4"
    ∧ (index_post ⟨"/u", "/c"⟩ "u" (.ok "T")
        (.ran 0 ["Video processed successfully: /tmp/out.mp4"]) []).response
      = .completed "/video/out.mp4" := by
  have h := c4_success_line_extraction ⟨"/u", "/c"⟩ "u" "T" "/tmp/out.mp4" []
    (by decide) (by decide)
  exact ⟨h.1.trans (by decide), h.2.trans (by decide)⟩

end App
